import Mathlib

/-!
# Verification of the drag-to-scroll plugin core (src/main.ts)

Shallow embedding of the drag/inertia engine of the plugin.  JS numbers are
modelled as exact rationals (`ℚ`); the DOM scroll target is modelled as a
per-event oracle `scrollable : Bool` saying whether `getScrollableElement`
returns a non-null element (the query itself is an external DOM lookup);
`requestAnimationFrame` / `cancelAnimationFrame` are modelled by an explicit
list of outstanding callback handles together with a fresh-handle counter
(real handles are positive, so the JS truthiness test `if (animationFrameId)`
coincides with presence of the `Option`).  Scroll side effects
(`scrollableEl.scrollBy(0, d)`) are logged in an append-only list of deltas.
-/

/-- Settings record of the plugin (`DragToScrollSettings`).  `modifierKey` is
kept as a raw string exactly as it is stored and compared in the code. -/
structure DragToScrollSettings where
  mouseButton : Int
  modifierKey : String
  friction : ℚ
  deriving DecidableEq

/-- `DEFAULT_SETTINGS` from the source. -/
def DEFAULT_SETTINGS : DragToScrollSettings :=
  { mouseButton := 2, modifierKey := "none", friction := 0.92 }

/-- A persisted settings record as `loadData()` returns it: the whole record
may be absent (`none` at the `Option PersistedData` level), and each field may
be missing from the stored object; a present field carries an arbitrary raw
value, possibly out of the documented range. -/
structure PersistedData where
  mouseButton : Option Int
  modifierKey : Option String
  friction : Option ℚ
  deriving DecidableEq

/-- `loadSettings`: `Object.assign({}, DEFAULT_SETTINGS, await this.loadData())`.
`Object.assign` copies every own property present on the loaded object over
the default, whatever its value; a missing property keeps the default; a
`null` load result leaves all defaults. -/
def loadSettings (data : Option PersistedData) : DragToScrollSettings :=
  match data with
  | none => DEFAULT_SETTINGS
  | some d =>
    { mouseButton := d.mouseButton.getD DEFAULT_SETTINGS.mouseButton
      modifierKey := d.modifierKey.getD DEFAULT_SETTINGS.modifierKey
      friction := d.friction.getD DEFAULT_SETTINGS.friction }

/-- Validity of a stored `mouseButton` value (the settings UI only ever writes
0, 1 or 2). -/
def validMouseButton (b : Int) : Prop := b = 0 ∨ b = 1 ∨ b = 2

instance (b : Int) : Decidable (validMouseButton b) := by
  unfold validMouseButton; infer_instance

/-- Validity of a stored `friction` value (the settings slider is bounded to
`[0.80, 0.99]`). -/
def validFriction (q : ℚ) : Prop := 0.80 ≤ q ∧ q ≤ 0.99

instance (q : ℚ) : Decidable (validFriction q) := by
  unfold validFriction; infer_instance

/-- The mutable fields of the `DragToScrollPlugin` instance. -/
structure PluginState where
  isDragging : Bool
  startY : ℚ
  didDrag : Bool
  lastVelocityY : ℚ
  animationFrameId : Option Nat
  deriving DecidableEq

/-- The plugin state together with its effectful environment: the set of
outstanding animation-frame callbacks (`pending`), a counter issuing fresh
handles, and the log of scroll deltas applied via `scrollBy(0, d)`. -/
structure World where
  plugin : PluginState
  pending : List Nat
  nextHandle : Nat
  scrolls : List ℚ
  deriving DecidableEq

/-- The fields of a `MouseEvent` that the handlers read.  `targetInLeafContent`
models `(evt.target as HTMLElement).closest('.workspace-leaf-content') !== null`. -/
structure MouseEvent where
  button : Int
  clientY : ℚ
  ctrlKey : Bool
  altKey : Bool
  shiftKey : Bool
  targetInLeafContent : Bool
  deriving DecidableEq

/-- `DRAG_THRESHOLD = 5`. -/
def DRAG_THRESHOLD : ℚ := 5

/-- `stopInertiaScroll`: cancel the pending callback if a handle is stored,
null the handle, zero `lastVelocityY`. -/
def stopInertiaScroll (w : World) : World :=
  let w1 :=
    match w.plugin.animationFrameId with
    | some h =>
      { w with pending := w.pending.erase h
               plugin := { w.plugin with animationFrameId := none } }
    | none => w
  { w1 with plugin := { w1.plugin with lastVelocityY := 0 } }

/-- `startInertiaScroll`: cancel the callback stored in `animationFrameId` (if
any) and schedule a fresh one, storing its handle. -/
def startInertiaScroll (w : World) : World :=
  let w1 :=
    match w.plugin.animationFrameId with
    | some h => { w with pending := w.pending.erase h }
    | none => w
  { w1 with pending := w1.pending ++ [w1.nextHandle]
            nextHandle := w1.nextHandle + 1
            plugin := { w1.plugin with animationFrameId := some w1.nextHandle } }

/-- `inertiaStep`: re-resolve the scroll target; stop if it is gone or
`|lastVelocityY| < 1`; otherwise scroll by `lastVelocityY`, decay it by the
friction factor and schedule the next tick. -/
def inertiaStep (s : DragToScrollSettings) (scrollable : Bool) (w : World) : World :=
  if scrollable = false ∨ |w.plugin.lastVelocityY| < 1 then
    stopInertiaScroll w
  else
    let w1 := { w with scrolls := w.scrolls ++ [w.plugin.lastVelocityY] }
    let w2 := { w1 with plugin :=
      { w1.plugin with lastVelocityY := w1.plugin.lastVelocityY * s.friction } }
    { w2 with pending := w2.pending ++ [w2.nextHandle]
              nextHandle := w2.nextHandle + 1
              plugin := { w2.plugin with animationFrameId := some w2.nextHandle } }

/-- The modifier rejection test of `handleMouseDown`, verbatim:
`(mod === 'ctrl' && !evt.ctrlKey) || (mod === 'shift' && !evt.shiftKey) ||
(mod === 'alt' && !evt.altKey) || (mod === 'none' && isModKeyPressed)`. -/
def modifierRejected (s : DragToScrollSettings) (evt : MouseEvent) : Bool :=
  (s.modifierKey == "ctrl" && !evt.ctrlKey) ||
  (s.modifierKey == "shift" && !evt.shiftKey) ||
  (s.modifierKey == "alt" && !evt.altKey) ||
  (s.modifierKey == "none" && (evt.ctrlKey || evt.altKey || evt.shiftKey))

/-- `handleMouseDown`.  Returns the new world and whether
`evt.preventDefault()` was called. -/
def handleMouseDown (s : DragToScrollSettings) (scrollable : Bool)
    (evt : MouseEvent) (w : World) : World × Bool :=
  if evt.button ≠ s.mouseButton then (w, false)
  else if modifierRejected s evt = true then (w, false)
  else
    let w1 := stopInertiaScroll w
    if evt.targetInLeafContent = false then (w1, false)
    else if scrollable = false then (w1, false)
    else
      ({ w1 with plugin :=
           { w1.plugin with isDragging := true
                            startY := evt.clientY
                            didDrag := false
                            lastVelocityY := 0 } }, true)

/-- `handleMouseMove`. -/
def handleMouseMove (scrollable : Bool) (evt : MouseEvent) (w : World) : World :=
  if w.plugin.isDragging = false then w
  else if scrollable = false then w
  else
    let w1 :=
      if w.plugin.didDrag = false ∧ DRAG_THRESHOLD < |evt.clientY - w.plugin.startY| then
        { w with plugin := { w.plugin with didDrag := true } }
      else w
    if w1.plugin.didDrag = true then
      let deltaY := evt.clientY - w1.plugin.startY
      let scrollAmount := -deltaY
      { w1 with scrolls := w1.scrolls ++ [scrollAmount]
                plugin := { w1.plugin with lastVelocityY := scrollAmount
                                           startY := evt.clientY } }
    else w1

/-- `handleMouseUp`. -/
def handleMouseUp (s : DragToScrollSettings) (evt : MouseEvent) (w : World) : World :=
  if evt.button ≠ s.mouseButton ∨ w.plugin.isDragging = false then w
  else
    let w1 := { w with plugin := { w.plugin with isDragging := false } }
    if w1.plugin.didDrag = true then startInertiaScroll w1 else w1

/-- `handleContextMenu`.  Returns the new world, whether `preventDefault` was
called, and whether `stopImmediatePropagation` was called. -/
def handleContextMenu (s : DragToScrollSettings) (w : World) : World × Bool × Bool :=
  if w.plugin.didDrag = true then
    if s.mouseButton = 2 then
      ({ w with plugin := { w.plugin with didDrag := false } }, true, true)
    else
      ({ w with plugin := { w.plugin with didDrag := false } }, false, false)
  else (w, false, false)

/-- External events driving the plugin: the four DOM events (each carrying the
per-event resolvability of the scroll target where the handler re-resolves it)
and the firing of a scheduled animation-frame callback with handle `h`. -/
inductive Event where
  | down (scrollable : Bool) (evt : MouseEvent)
  | move (scrollable : Bool) (evt : MouseEvent)
  | up (evt : MouseEvent)
  | menu
  | tick (scrollable : Bool) (h : Nat)
  deriving DecidableEq

/-- One event step.  A `tick` fires only if its handle is outstanding; the
scheduler dequeues the callback before running `inertiaStep`. -/
def step (s : DragToScrollSettings) (w : World) : Event → World
  | Event.down sc evt => (handleMouseDown s sc evt w).1
  | Event.move sc evt => handleMouseMove sc evt w
  | Event.up evt => handleMouseUp s evt w
  | Event.menu => (handleContextMenu s w).1
  | Event.tick sc h =>
      if h ∈ w.pending then inertiaStep s sc { w with pending := w.pending.erase h }
      else w

/-- Run a sequence of events. -/
def stepsRun (s : DragToScrollSettings) (es : List Event) (w : World) : World :=
  es.foldl (step s) w

/-- Scheduler invariant: the outstanding callbacks are exactly the one whose
handle is stored in `animationFrameId` (if any). -/
def SchedInv (w : World) : Prop :=
  w.pending = w.plugin.animationFrameId.toList

instance (w : World) : Decidable (SchedInv w) := by
  unfold SchedInv; infer_instance

/-- Run a list of mouse-move events (scroll target resolvable at each). -/
def movesRun (ys : List ℚ) (w : World) : World :=
  ys.foldl (fun w' y =>
    handleMouseMove true
      { button := 0, clientY := y, ctrlKey := false, altKey := false,
        shiftKey := false, targetInLeafContent := true } w') w

/-- The spec-side modifier condition of claim C5: with `none` configured no
modifier key may be held; with a specific key configured that key must be held
and the others are not consulted. -/
def modOk (s : DragToScrollSettings) (evt : MouseEvent) : Bool :=
  if s.modifierKey == "none" then !(evt.ctrlKey || evt.altKey || evt.shiftKey)
  else if s.modifierKey == "ctrl" then evt.ctrlKey
  else if s.modifierKey == "shift" then evt.shiftKey
  else if s.modifierKey == "alt" then evt.altKey
  else true

/-! ## Helper lemmas -/

theorem stopInertiaScroll_spec (w : World) :
    (stopInertiaScroll w).plugin.animationFrameId = none ∧
    (stopInertiaScroll w).plugin.lastVelocityY = 0 ∧
    (stopInertiaScroll w).nextHandle = w.nextHandle ∧
    (stopInertiaScroll w).scrolls = w.scrolls ∧
    (stopInertiaScroll w).plugin.isDragging = w.plugin.isDragging ∧
    (stopInertiaScroll w).plugin.didDrag = w.plugin.didDrag ∧
    (stopInertiaScroll w).plugin.startY = w.plugin.startY := by
  unfold stopInertiaScroll
  rcases h : w.plugin.animationFrameId with _ | h <;> simp [h]

theorem inertiaStep_stop (s : DragToScrollSettings) (sc : Bool) (w : World)
    (h : sc = false ∨ |w.plugin.lastVelocityY| < 1) :
    inertiaStep s sc w = stopInertiaScroll w := by
  unfold inertiaStep; rw [if_pos h]

theorem inertiaStep_go (s : DragToScrollSettings) (w : World)
    (h : 1 ≤ |w.plugin.lastVelocityY|) :
    inertiaStep s true w =
      { plugin := { w.plugin with
                      lastVelocityY := w.plugin.lastVelocityY * s.friction
                      animationFrameId := some w.nextHandle }
        pending := w.pending ++ [w.nextHandle]
        nextHandle := w.nextHandle + 1
        scrolls := w.scrolls ++ [w.plugin.lastVelocityY] } := by
  unfold inertiaStep
  rw [if_neg (by simp [not_or, not_lt, h])]

theorem handleMouseMove_small (evt : MouseEvent) (w : World)
    (hdrag : w.plugin.isDragging = true) (hdid : w.plugin.didDrag = false)
    (hy : |evt.clientY - w.plugin.startY| ≤ DRAG_THRESHOLD) :
    handleMouseMove true evt w = w := by
  unfold handleMouseMove
  simp [hdrag, hdid, not_lt.mpr hy]

theorem handleMouseMove_cross (evt : MouseEvent) (w : World)
    (hdrag : w.plugin.isDragging = true) (hdid : w.plugin.didDrag = false)
    (hy : DRAG_THRESHOLD < |evt.clientY - w.plugin.startY|) :
    handleMouseMove true evt w =
      { plugin := { w.plugin with
                      didDrag := true
                      lastVelocityY := -(evt.clientY - w.plugin.startY)
                      startY := evt.clientY }
        pending := w.pending
        nextHandle := w.nextHandle
        scrolls := w.scrolls ++ [-(evt.clientY - w.plugin.startY)] } := by
  unfold handleMouseMove
  simp [hdrag, hdid, hy]

theorem handleMouseMove_dragging (sc : Bool) (evt : MouseEvent) (w : World)
    (hdid : w.plugin.didDrag = true) :
    handleMouseMove sc evt w = w ∨
    handleMouseMove sc evt w =
      { plugin := { w.plugin with
                      lastVelocityY := -(evt.clientY - w.plugin.startY)
                      startY := evt.clientY }
        pending := w.pending
        nextHandle := w.nextHandle
        scrolls := w.scrolls ++ [-(evt.clientY - w.plugin.startY)] } := by
  unfold handleMouseMove
  by_cases h1 : w.plugin.isDragging = false
  · left; rw [if_pos h1]
  · by_cases h2 : sc = false
    · left; rw [if_neg h1, if_pos h2]
    · right
      rw [if_neg h1, if_neg h2]
      simp [hdid]

theorem handleMouseMove_didDrag_mono (sc : Bool) (evt : MouseEvent) (w : World)
    (hdid : w.plugin.didDrag = true) :
    (handleMouseMove sc evt w).plugin.didDrag = true := by
  rcases handleMouseMove_dragging sc evt w hdid with h | h <;> rw [h] <;> simpa using hdid

theorem movesRun_cons (y : ℚ) (ys : List ℚ) (w : World) :
    movesRun (y :: ys) w =
      movesRun ys (handleMouseMove true
        { button := 0, clientY := y, ctrlKey := false, altKey := false,
          shiftKey := false, targetInLeafContent := true } w) := rfl

theorem movesRun_append (as bs : List ℚ) (w : World) :
    movesRun (as ++ bs) w = movesRun bs (movesRun as w) := by
  unfold movesRun; exact List.foldl_append _ _ as bs

theorem movesRun_small (ys : List ℚ) (w : World)
    (hdrag : w.plugin.isDragging = true) (hdid : w.plugin.didDrag = false) :
    (∀ z ∈ ys, |z - w.plugin.startY| ≤ DRAG_THRESHOLD) → movesRun ys w = w := by
  induction ys with
  | nil => intro _; rfl
  | cons y ys ih =>
    intro hsmall
    have h1 := handleMouseMove_small
      { button := 0, clientY := y, ctrlKey := false, altKey := false,
        shiftKey := false, targetInLeafContent := true } w hdrag hdid
      (hsmall y (List.mem_cons_self y ys))
    rw [movesRun_cons, h1]
    exact ih (fun z hz => hsmall z (List.mem_cons_of_mem y hz))

theorem movesRun_didDrag_mono (ys : List ℚ) (w : World)
    (hdid : w.plugin.didDrag = true) :
    (movesRun ys w).plugin.didDrag = true := by
  induction ys generalizing w with
  | nil => exact hdid
  | cons y ys ih =>
    rw [movesRun_cons]
    exact ih _ (handleMouseMove_didDrag_mono _ _ _ hdid)

theorem stopInertiaScroll_schedInv (w : World) (h : SchedInv w) :
    (stopInertiaScroll w).pending = [] ∧ SchedInv (stopInertiaScroll w) := by
  unfold SchedInv at *
  unfold stopInertiaScroll
  rcases hid : w.plugin.animationFrameId with _ | hh <;> rw [hid] at h <;> simp [hid] at h ⊢ <;>
    simp [h]

theorem startInertiaScroll_schedInv (w : World) (h : SchedInv w) :
    SchedInv (startInertiaScroll w) := by
  unfold SchedInv at *
  unfold startInertiaScroll
  rcases hid : w.plugin.animationFrameId with _ | hh <;> rw [hid] at h <;> simp [hid] at h ⊢ <;>
    simp [h]

theorem inertiaStep_schedInv (s : DragToScrollSettings) (sc : Bool) (w : World)
    (h : w.pending = []) :
    SchedInv (inertiaStep s sc w) := by
  unfold inertiaStep
  split
  · unfold SchedInv
    unfold stopInertiaScroll
    rcases hid : w.plugin.animationFrameId with _ | hh <;> simp [hid, h]
  · unfold SchedInv
    simp [h]

theorem handleMouseDown_schedInv (s : DragToScrollSettings) (sc : Bool)
    (evt : MouseEvent) (w : World) (h : SchedInv w) :
    SchedInv (handleMouseDown s sc evt w).1 := by
  have hstop := stopInertiaScroll_schedInv w h
  have hid := (stopInertiaScroll_spec w).1
  unfold handleMouseDown
  by_cases hA : evt.button ≠ s.mouseButton
  · simpa [hA] using h
  · by_cases hB : modifierRejected s evt = true
    · simpa [hA, hB] using h
    · by_cases hC : evt.targetInLeafContent = false
      · simpa [hA, hB, hC] using hstop.2
      · by_cases hD : sc = false
        · simpa [hA, hB, hC, hD] using hstop.2
        · unfold SchedInv
          simp [hA, hB, hC, hD, hstop.1, hid]

theorem handleMouseMove_frame (sc : Bool) (evt : MouseEvent) (w : World) :
    (handleMouseMove sc evt w).pending = w.pending ∧
    (handleMouseMove sc evt w).nextHandle = w.nextHandle ∧
    (handleMouseMove sc evt w).plugin.animationFrameId = w.plugin.animationFrameId ∧
    (handleMouseMove sc evt w).plugin.isDragging = w.plugin.isDragging := by
  unfold handleMouseMove
  by_cases h1 : w.plugin.isDragging = false
  · simp [h1]
  · by_cases h2 : sc = false
    · simp [h1, h2]
    · by_cases hdd : w.plugin.didDrag = true
      · simp [h1, h2, hdd]
      · have hdd' : w.plugin.didDrag = false := by simpa using hdd
        by_cases hth : DRAG_THRESHOLD < |evt.clientY - w.plugin.startY| <;>
          simp [h1, h2, hdd', hth]

theorem handleMouseMove_schedInv (sc : Bool) (evt : MouseEvent) (w : World)
    (h : SchedInv w) :
    SchedInv (handleMouseMove sc evt w) := by
  unfold SchedInv at *
  rw [(handleMouseMove_frame sc evt w).1, (handleMouseMove_frame sc evt w).2.2.1]
  exact h

theorem handleMouseUp_cases (s : DragToScrollSettings) (evt : MouseEvent) (w : World) :
    handleMouseUp s evt w = w ∨
    handleMouseUp s evt w = { w with plugin := { w.plugin with isDragging := false } } ∨
    handleMouseUp s evt w =
      startInertiaScroll { w with plugin := { w.plugin with isDragging := false } } := by
  unfold handleMouseUp
  by_cases h1 : evt.button ≠ s.mouseButton ∨ w.plugin.isDragging = false
  · left; rw [if_pos h1]
  · by_cases h2 : w.plugin.didDrag = true
    · right; right; simp [h1, h2]
    · right; left; simp [h1, h2]

theorem handleMouseUp_schedInv (s : DragToScrollSettings) (evt : MouseEvent)
    (w : World) (h : SchedInv w) :
    SchedInv (handleMouseUp s evt w) := by
  have h' : SchedInv { w with plugin := { w.plugin with isDragging := false } } := by
    unfold SchedInv at *; simpa using h
  rcases handleMouseUp_cases s evt w with hc | hc | hc <;> rw [hc]
  · exact h
  · exact h'
  · exact startInertiaScroll_schedInv _ h'

theorem handleContextMenu_schedInv (s : DragToScrollSettings) (w : World)
    (h : SchedInv w) :
    SchedInv (handleContextMenu s w).1 := by
  unfold handleContextMenu
  by_cases h1 : w.plugin.didDrag = true
  · by_cases h2 : s.mouseButton = 2 <;>
      (unfold SchedInv at *; simpa [h1, h2] using h)
  · simpa [h1] using h

theorem pending_erase_empty (w : World) (hh : Nat) (h : SchedInv w)
    (hmem : hh ∈ w.pending) : w.pending.erase hh = [] := by
  unfold SchedInv at h
  rcases hid : w.plugin.animationFrameId with _ | k <;> rw [hid] at h <;>
    rw [h] at hmem ⊢
  · simp at hmem
  · simp at hmem
    subst hmem
    simp

theorem step_schedInv (s : DragToScrollSettings) (w : World) (e : Event)
    (h : SchedInv w) :
    SchedInv (step s w e) := by
  cases e with
  | down sc evt => exact handleMouseDown_schedInv s sc evt w h
  | move sc evt => exact handleMouseMove_schedInv sc evt w h
  | up evt => exact handleMouseUp_schedInv s evt w h
  | menu => exact handleContextMenu_schedInv s w h
  | tick sc hh =>
    show SchedInv
      (if hh ∈ w.pending then inertiaStep s sc { w with pending := w.pending.erase hh }
       else w)
    by_cases hmem : hh ∈ w.pending
    · rw [if_pos hmem]
      exact inertiaStep_schedInv s sc _ (pending_erase_empty w hh h hmem)
    · rw [if_neg hmem]; exact h

theorem stepsRun_schedInv (s : DragToScrollSettings) (es : List Event) (w : World)
    (h : SchedInv w) :
    SchedInv (stepsRun s es w) := by
  induction es generalizing w with
  | nil => exact h
  | cons e es ih => exact ih _ (step_schedInv s w e h)

theorem inertia_velocity_iterate (s : DragToScrollSettings) (w : World) (n : Nat)
    (hlive : ∀ k < n, 1 ≤ |w.plugin.lastVelocityY * s.friction ^ k|) :
    ((inertiaStep s true)^[n] w).plugin.lastVelocityY =
      w.plugin.lastVelocityY * s.friction ^ n := by
  induction n with
  | zero => simp
  | succ n ih =>
    rw [Function.iterate_succ_apply']
    have hv := ih (fun k hk => hlive k (Nat.lt_succ_of_lt hk))
    have h1 : 1 ≤ |((inertiaStep s true)^[n] w).plugin.lastVelocityY| := by
      rw [hv]; exact hlive n (Nat.lt_succ_self n)
    rw [inertiaStep_go s _ h1, hv]
    simp [pow_succ, mul_assoc]

theorem inertiaStep_scroll_cases (s : DragToScrollSettings) (sc : Bool) (w : World) :
    (inertiaStep s sc w).scrolls = w.scrolls ∨
    ((inertiaStep s sc w).scrolls = w.scrolls ++ [w.plugin.lastVelocityY] ∧
      1 ≤ |w.plugin.lastVelocityY|) := by
  by_cases h : sc = false ∨ |w.plugin.lastVelocityY| < 1
  · left
    rw [inertiaStep_stop s sc w h]
    exact (stopInertiaScroll_spec w).2.2.2.1
  · right
    push_neg at h
    have hsc : sc = true := by
      cases sc
      · exact absurd rfl h.1
      · rfl
    subst hsc
    rw [inertiaStep_go s w h.2]
    exact ⟨rfl, h.2⟩

theorem inertia_scrolls_mem (s : DragToScrollSettings) (sc : Bool) (w : World) (n : Nat) :
    ∀ d ∈ ((inertiaStep s sc)^[n] w).scrolls, d ∈ w.scrolls ∨ 1 ≤ |d| := by
  induction n generalizing w with
  | zero => intro d hd; exact Or.inl hd
  | succ n ih =>
    intro d hd
    rw [Function.iterate_succ_apply] at hd
    rcases ih (inertiaStep s sc w) d hd with hmem | hge
    · rcases inertiaStep_scroll_cases s sc w with hc | hc
      · rw [hc] at hmem; exact Or.inl hmem
      · rw [hc.1] at hmem
        rcases List.mem_append.mp hmem with hm | hm
        · exact Or.inl hm
        · right
          rw [List.mem_singleton.mp hm]
          exact hc.2
    · exact Or.inr hge

/-! ## Claim theorems -/

/-- C1: in an inertia run with a resolvable scroll target, the velocity after
`n` ticks from seed `v0` is `v0 * friction^n` (as long as each of those ticks
started with velocity of magnitude at least the stop threshold 1); on the
first tick whose current velocity has magnitude below 1, the run terminates —
the handle is cleared and the velocity zeroed — and no further callback is
scheduled (the fresh-handle counter does not move) and no scroll is applied. -/
theorem inertia_run_velocity_and_termination (s : DragToScrollSettings) (w : World)
    (n : Nat)
    (hlive : ∀ k < n, 1 ≤ |w.plugin.lastVelocityY * s.friction ^ k|) :
    ((inertiaStep s true)^[n] w).plugin.lastVelocityY =
      w.plugin.lastVelocityY * s.friction ^ n ∧
    (|w.plugin.lastVelocityY * s.friction ^ n| < 1 →
      (inertiaStep s true ((inertiaStep s true)^[n] w)).plugin.animationFrameId = none ∧
      (inertiaStep s true ((inertiaStep s true)^[n] w)).plugin.lastVelocityY = 0 ∧
      (inertiaStep s true ((inertiaStep s true)^[n] w)).nextHandle =
        ((inertiaStep s true)^[n] w).nextHandle ∧
      (inertiaStep s true ((inertiaStep s true)^[n] w)).scrolls =
        ((inertiaStep s true)^[n] w).scrolls) := by
  have hv := inertia_velocity_iterate s w n hlive
  refine ⟨hv, fun hsmall => ?_⟩
  have hstop := inertiaStep_stop s true ((inertiaStep s true)^[n] w)
    (Or.inr (by rw [hv]; exact hsmall))
  rw [hstop]
  exact ⟨(stopInertiaScroll_spec _).1, (stopInertiaScroll_spec _).2.1,
    (stopInertiaScroll_spec _).2.2.1, (stopInertiaScroll_spec _).2.2.2.1⟩

/-- C9: when the scroll target is unresolvable, a mouse-move during a drag is
a complete no-op (the drag state persists unchanged), and an inertia tick
terminates the run — handle cleared, velocity zeroed — without applying any
scroll and without scheduling a further callback. -/
theorem unresolvable_target_is_noop (s : DragToScrollSettings) (evt : MouseEvent)
    (w : World) (hdragging : w.plugin.isDragging = true) :
    handleMouseMove false evt w = w ∧
    inertiaStep s false w = stopInertiaScroll w ∧
    (inertiaStep s false w).plugin.animationFrameId = none ∧
    (inertiaStep s false w).plugin.lastVelocityY = 0 ∧
    (inertiaStep s false w).scrolls = w.scrolls ∧
    (inertiaStep s false w).nextHandle = w.nextHandle := by
  have hstop := inertiaStep_stop s false w (Or.inl rfl)
  refine ⟨?_, hstop, ?_, ?_, ?_, ?_⟩
  · unfold handleMouseMove
    rw [if_neg (by simp [hdragging]), if_pos rfl]
  · rw [hstop]; exact (stopInertiaScroll_spec w).1
  · rw [hstop]; exact (stopInertiaScroll_spec w).2.1
  · rw [hstop]; exact (stopInertiaScroll_spec w).2.2.2.1
  · rw [hstop]; exact (stopInertiaScroll_spec w).2.2.1

/-- C10: within an inertia tick the stop-threshold check precedes the scroll
application: a tick whose current velocity has magnitude below 1 terminates
without applying a scroll, a tick either applies no scroll or appends exactly
one delta of magnitude at least 1, and hence every delta the inertia engine
ever applies over any number of ticks has magnitude at least 1. -/
theorem inertia_threshold_precedes_scroll (s : DragToScrollSettings) (sc : Bool)
    (w : World) (n : Nat) :
    (|w.plugin.lastVelocityY| < 1 →
      inertiaStep s sc w = stopInertiaScroll w ∧
      (inertiaStep s sc w).scrolls = w.scrolls) ∧
    ((inertiaStep s sc w).scrolls = w.scrolls ∨
      ((inertiaStep s sc w).scrolls = w.scrolls ++ [w.plugin.lastVelocityY] ∧
        1 ≤ |w.plugin.lastVelocityY|)) ∧
    (∀ d ∈ ((inertiaStep s sc)^[n] w).scrolls, d ∈ w.scrolls ∨ 1 ≤ |d|) := by
  refine ⟨fun hsmall => ?_, inertiaStep_scroll_cases s sc w, inertia_scrolls_mem s sc w n⟩
  have hstop := inertiaStep_stop s sc w (Or.inr hsmall)
  rw [hstop]
  exact ⟨rfl, (stopInertiaScroll_spec w).2.2.2.1⟩

/-- C2: for a gesture armed at anchor `startY`, as long as every move's
displacement from the anchor stays at or below the 5 px threshold the state is
entirely unchanged (`didDrag` stays false, no scroll is applied); once a move
exceeds the threshold, `didDrag` becomes true exactly at that move and stays
true for all later moves of the gesture. -/
theorem drag_threshold_classification (w : World) (ys1 ys2 : List ℚ) (y : ℚ)
    (hdrag : w.plugin.isDragging = true) (hdid : w.plugin.didDrag = false)
    (hsmall : ∀ z ∈ ys1, |z - w.plugin.startY| ≤ DRAG_THRESHOLD)
    (hbig : DRAG_THRESHOLD < |y - w.plugin.startY|) :
    movesRun ys1 w = w ∧
    (movesRun ys1 w).plugin.didDrag = false ∧
    (movesRun ys1 w).scrolls = w.scrolls ∧
    (movesRun (ys1 ++ [y]) w).plugin.didDrag = true ∧
    (movesRun (ys1 ++ y :: ys2) w).plugin.didDrag = true := by
  have h1 : movesRun ys1 w = w := movesRun_small ys1 w hdrag hdid hsmall
  have hcross := handleMouseMove_cross
    { button := 0, clientY := y, ctrlKey := false, altKey := false,
      shiftKey := false, targetInLeafContent := true } w hdrag hdid hbig
  have h2 : (movesRun (ys1 ++ [y]) w).plugin.didDrag = true := by
    rw [movesRun_append, h1, movesRun_cons, hcross]
    rfl
  have h3 : (movesRun (ys1 ++ y :: ys2) w).plugin.didDrag = true := by
    have heq : ys1 ++ y :: ys2 = (ys1 ++ [y]) ++ ys2 := by simp
    rw [heq, movesRun_append]
    apply movesRun_didDrag_mono
    rw [movesRun_append, h1, movesRun_cons, hcross]
    rfl
  exact ⟨h1, by rw [h1]; exact hdid, by rw [h1], h2, h3⟩

/-- C3: every move processed in the Dragging state applies exactly the scroll
delta `-(currentY - anchorY)` — the negation of the pointer motion — records
it as `lastVelocityY`, and rebases the anchor to the current Y, leaving all
other state untouched. -/
theorem dragging_move_inverts_delta (evt : MouseEvent) (w : World)
    (hdragging : w.plugin.isDragging = true) (hdid : w.plugin.didDrag = true) :
    handleMouseMove true evt w =
      { plugin := { w.plugin with
                      lastVelocityY := -(evt.clientY - w.plugin.startY)
                      startY := evt.clientY }
        pending := w.pending
        nextHandle := w.nextHandle
        scrolls := w.scrolls ++ [-(evt.clientY - w.plugin.startY)] } := by
  unfold handleMouseMove
  rw [if_neg (by simp [hdragging]), if_neg (by simp)]
  simp [hdid]

/-- C4: a context-menu event has its default action suppressed if and only if
`didDrag` is true and the configured trigger button is the right button (2),
and after the handler runs `didDrag` is false regardless of the button. -/
theorem contextmenu_suppression_iff (s : DragToScrollSettings) (w : World) :
    ((handleContextMenu s w).2.1 = true ↔
      (w.plugin.didDrag = true ∧ s.mouseButton = 2)) ∧
    (handleContextMenu s w).1.plugin.didDrag = false := by
  unfold handleContextMenu
  by_cases h1 : w.plugin.didDrag = true
  · by_cases h2 : s.mouseButton = 2 <;> simp [h1, h2]
  · simp [h1]

theorem modifierRejected_eq_not_modOk (s : DragToScrollSettings) (evt : MouseEvent)
    (hmk : s.modifierKey = "none" ∨ s.modifierKey = "ctrl" ∨
           s.modifierKey = "shift" ∨ s.modifierKey = "alt") :
    modifierRejected s evt = !modOk s evt := by
  rcases hmk with h | h | h | h <;>
    simp +decide [modifierRejected, modOk, h]

/-- C5: for a pointer-down carrying the configured trigger button, the handler
proceeds past the modifier gate exactly when the configured condition holds
(`none` ⇒ no modifier key held; a specific key ⇒ that key held, the others not
consulted); when it fails, the click passes through completely untouched (no
state change, no default-action suppression); when it holds (and the target
and scroll target resolve) the gesture is armed with suppression. -/
theorem modifier_gating (s : DragToScrollSettings) (sc : Bool) (evt : MouseEvent)
    (w : World) (hbtn : evt.button = s.mouseButton)
    (hmk : s.modifierKey = "none" ∨ s.modifierKey = "ctrl" ∨
           s.modifierKey = "shift" ∨ s.modifierKey = "alt") :
    (modOk s evt = false → handleMouseDown s sc evt w = (w, false)) ∧
    (modOk s evt = true → evt.targetInLeafContent = true → sc = true →
      (handleMouseDown s sc evt w).1.plugin.isDragging = true ∧
      (handleMouseDown s sc evt w).2 = true) := by
  have hrej := modifierRejected_eq_not_modOk s evt hmk
  constructor
  · intro hmo
    simp [handleMouseDown, hbtn, hrej, hmo]
  · intro hmo htgt hsc
    subst hsc
    simp [handleMouseDown, hbtn, hrej, hmo, htgt]

/-- A world with an active inertia run: handle 1 stored and outstanding,
velocity 5. -/
def outsideWorld : World :=
  { plugin := { isDragging := false, startY := 0, didDrag := false,
                lastVelocityY := 5, animationFrameId := some 1 },
    pending := [1], nextHandle := 2, scrolls := [] }

/-- A pointer-down event with trigger button 2, no modifiers, whose target is
outside the recognized content region. -/
def outsideEvt : MouseEvent :=
  { button := 2, clientY := 0, ctrlKey := false, altKey := false,
    shiftKey := false, targetInLeafContent := false }

/-- C6 counterexample: a pointer-down with the default trigger button (2), no
modifiers held, but a target outside the content region, arriving while an
inertia run is active (stored handle 1, velocity 5), cancels the run: the
handle is cleared, the outstanding callback removed and the velocity zeroed —
contradicting the claim that no part of the state changes. -/
theorem mousedown_outside_region_counterexample :
    (outsideWorld.plugin.lastVelocityY = 5 ∧
     outsideWorld.plugin.animationFrameId = some 1 ∧
     outsideWorld.pending = [1]) ∧
    ((handleMouseDown DEFAULT_SETTINGS true outsideEvt outsideWorld).1.plugin.lastVelocityY = 0 ∧
     (handleMouseDown DEFAULT_SETTINGS true outsideEvt outsideWorld).1.plugin.animationFrameId = none ∧
     (handleMouseDown DEFAULT_SETTINGS true outsideEvt outsideWorld).1.pending = [] ∧
     (handleMouseDown DEFAULT_SETTINGS true outsideEvt outsideWorld).1 ≠ outsideWorld) := by
  refine ⟨⟨rfl, rfl, rfl⟩, ?_⟩
  norm_num [handleMouseDown, modifierRejected, stopInertiaScroll, DEFAULT_SETTINGS,
    outsideWorld, outsideEvt]
  decide

/-- C6 (amended): a pointer-down whose target lies outside the recognized
content region never arms a gesture: the gesture fields `isDragging`,
`didDrag` and the anchor keep their values, no scroll is applied and no
default action is suppressed; the event is a complete no-op when the button
or modifier gate fails, but when the trigger button and modifier condition
match, the handler has already called `stopInertiaScroll`, so an active
inertia run is cancelled and its velocity zeroed before the target check. -/
theorem mousedown_outside_region (s : DragToScrollSettings) (sc : Bool)
    (evt : MouseEvent) (w : World) (houtside : evt.targetInLeafContent = false) :
    (handleMouseDown s sc evt w).2 = false ∧
    (handleMouseDown s sc evt w).1.plugin.isDragging = w.plugin.isDragging ∧
    (handleMouseDown s sc evt w).1.plugin.didDrag = w.plugin.didDrag ∧
    (handleMouseDown s sc evt w).1.plugin.startY = w.plugin.startY ∧
    (handleMouseDown s sc evt w).1.scrolls = w.scrolls ∧
    ((evt.button ≠ s.mouseButton ∨ modifierRejected s evt = true) →
      (handleMouseDown s sc evt w).1 = w) ∧
    (evt.button = s.mouseButton → modifierRejected s evt = false →
      (handleMouseDown s sc evt w).1 = stopInertiaScroll w) := by
  have hs := stopInertiaScroll_spec w
  by_cases hA : evt.button ≠ s.mouseButton
  · have hw : handleMouseDown s sc evt w = (w, false) := by simp [handleMouseDown, hA]
    rw [hw]
    exact ⟨rfl, rfl, rfl, rfl, rfl, fun _ => rfl, fun hb => absurd hb hA⟩
  · push_neg at hA
    by_cases hB : modifierRejected s evt = true
    · have hw : handleMouseDown s sc evt w = (w, false) := by
        simp [handleMouseDown, hA, hB]
      rw [hw]
      refine ⟨rfl, rfl, rfl, rfl, rfl, fun _ => rfl, fun _ hB' => ?_⟩
      rw [hB] at hB'
      exact absurd hB' (by simp)
    · have hB' : modifierRejected s evt = false := by simpa using hB
      have hw : handleMouseDown s sc evt w = (stopInertiaScroll w, false) := by
        simp [handleMouseDown, hA, hB', houtside]
      rw [hw]
      refine ⟨rfl, hs.2.2.2.2.1, hs.2.2.2.2.2.1, hs.2.2.2.2.2.2, hs.2.2.2.1,
        fun hor => ?_, fun _ _ => rfl⟩
      rcases hor with hc | hc
      · exact absurd hA hc
      · rw [hB'] at hc
        exact absurd hc (by simp)

/-- C7 counterexample: a persisted record carrying the malformed friction
value 2 (outside the documented `[0.80, 0.99]` range) does not fall back to
the default 0.92 — `Object.assign` copies the stored value over the default —
so a malformed present field does not keep the default. -/
theorem loadSettings_malformed_counterexample :
    ¬ validFriction 2 ∧
    (loadSettings (some { mouseButton := none, modifierKey := none,
                          friction := some 2 })).friction = 2 ∧
    DEFAULT_SETTINGS.friction = 0.92 ∧ (2 : ℚ) ≠ 0.92 := by
  refine ⟨?_, rfl, rfl, by norm_num⟩
  intro h
  have := h.2
  norm_num [validFriction] at h

/-- C7 (amended): loading merges the persisted record over the built-in
defaults `{mouseButton 2, modifierKey none, friction 0.92}` field by field:
a missing record or a missing field keeps the default, while any field
present in the record — whether valid or malformed — overrides the default
with the stored value. -/
theorem loadSettings_merges_defaults (data : Option PersistedData) :
    (data = none → loadSettings data = DEFAULT_SETTINGS) ∧
    (∀ d, data = some d →
      ((d.mouseButton = none → (loadSettings data).mouseButton = 2) ∧
       (∀ b, d.mouseButton = some b → (loadSettings data).mouseButton = b) ∧
       (d.modifierKey = none → (loadSettings data).modifierKey = "none") ∧
       (∀ m, d.modifierKey = some m → (loadSettings data).modifierKey = m) ∧
       (d.friction = none → (loadSettings data).friction = 0.92) ∧
       (∀ q, d.friction = some q → (loadSettings data).friction = q))) := by
  constructor
  · intro h; rw [h]; rfl
  · intro d hd
    subst hd
    refine ⟨fun h => ?_, fun b h => ?_, fun h => ?_, fun m h => ?_,
      fun h => ?_, fun q h => ?_⟩ <;> simp [loadSettings, h, DEFAULT_SETTINGS]

/-- C8: from any state satisfying the scheduler invariant, after any sequence
of events the invariant still holds and at most one scheduled inertia tick is
outstanding; moreover a pointer-down that arms a new gesture has already
stopped any prior inertia run — no callback remains outstanding, the stored
handle is cleared, and the velocity is zero — so no velocity carries over
between gestures. -/
theorem single_outstanding_tick (s : DragToScrollSettings) (w : World)
    (es : List Event) (hinv : SchedInv w) :
    (SchedInv (stepsRun s es w) ∧ (stepsRun s es w).pending.length ≤ 1) ∧
    (∀ sc evt, w.plugin.isDragging = false →
      (handleMouseDown s sc evt w).1.plugin.isDragging = true →
      (handleMouseDown s sc evt w).1.plugin.lastVelocityY = 0 ∧
      (handleMouseDown s sc evt w).1.pending = [] ∧
      (handleMouseDown s sc evt w).1.plugin.animationFrameId = none) := by
  constructor
  · have h := stepsRun_schedInv s es w hinv
    refine ⟨h, ?_⟩
    unfold SchedInv at h
    rw [h]
    cases (stepsRun s es w).plugin.animationFrameId <;> simp
  · intro sc evt hnotdrag harmed
    have hstop := stopInertiaScroll_schedInv w hinv
    have hid := (stopInertiaScroll_spec w).1
    by_cases hA : evt.button ≠ s.mouseButton
    · rw [show (handleMouseDown s sc evt w).1 = w from by simp [handleMouseDown, hA]]
        at harmed
      rw [hnotdrag] at harmed
      exact absurd harmed (by simp)
    · by_cases hB : modifierRejected s evt = true
      · rw [show (handleMouseDown s sc evt w).1 = w from by
            simp [handleMouseDown, hA, hB]] at harmed
        rw [hnotdrag] at harmed
        exact absurd harmed (by simp)
      · by_cases hC : evt.targetInLeafContent = false
        · rw [show (handleMouseDown s sc evt w).1 = stopInertiaScroll w from by
              simp [handleMouseDown, hA, hB, hC]] at harmed
          rw [(stopInertiaScroll_spec w).2.2.2.2.1, hnotdrag] at harmed
          exact absurd harmed (by simp)
        · by_cases hD : sc = false
          · rw [show (handleMouseDown s sc evt w).1 = stopInertiaScroll w from by
                simp [handleMouseDown, hA, hB, hC, hD]] at harmed
            rw [(stopInertiaScroll_spec w).2.2.2.2.1, hnotdrag] at harmed
            exact absurd harmed (by simp)
          · have hw : (handleMouseDown s sc evt w).1 =
                { stopInertiaScroll w with plugin :=
                    { (stopInertiaScroll w).plugin with
                        isDragging := true
                        startY := evt.clientY
                        didDrag := false
                        lastVelocityY := 0 } } := by
              simp [handleMouseDown, hA, hB, hC, hD]
            rw [hw]
            exact ⟨rfl, hstop.1, hid⟩

/-! ## Witnesses -/

/-- Settings with friction 1/2, used to exercise the inertia run concretely. -/
def halfFriction : DragToScrollSettings :=
  { mouseButton := 2, modifierKey := "none", friction := 1/2 }

/-- A world seeded with velocity 4 and an active run (handle 1). -/
def seedWorld : World :=
  { plugin := { isDragging := false, startY := 0, didDrag := false,
                lastVelocityY := 4, animationFrameId := some 1 },
    pending := [1], nextHandle := 2, scrolls := [] }

theorem inertia_run_velocity_and_termination_witness :
    (∀ k < 3, 1 ≤ |seedWorld.plugin.lastVelocityY * halfFriction.friction ^ k|) ∧
    |seedWorld.plugin.lastVelocityY * halfFriction.friction ^ 3| < 1 ∧
    ((inertiaStep halfFriction true)^[3] seedWorld).plugin.lastVelocityY =
      seedWorld.plugin.lastVelocityY * halfFriction.friction ^ 3 ∧
    (inertiaStep halfFriction true
      ((inertiaStep halfFriction true)^[3] seedWorld)).plugin.animationFrameId = none ∧
    (inertiaStep halfFriction true
      ((inertiaStep halfFriction true)^[3] seedWorld)).plugin.lastVelocityY = 0 := by
  have hlive : ∀ k < 3, 1 ≤ |seedWorld.plugin.lastVelocityY * halfFriction.friction ^ k| := by
    intro k hk
    interval_cases k <;> norm_num [seedWorld, halfFriction]
  have hsmall : |seedWorld.plugin.lastVelocityY * halfFriction.friction ^ 3| < 1 := by
    norm_num [seedWorld, halfFriction, abs_lt]
  have h := inertia_run_velocity_and_termination halfFriction seedWorld 3 hlive
  exact ⟨hlive, hsmall, h.1, (h.2 hsmall).1, (h.2 hsmall).2.1⟩

/-- A freshly armed world: dragging, anchor 0, `didDrag` false. -/
def armedWorld : World :=
  { plugin := { isDragging := true, startY := 0, didDrag := false,
                lastVelocityY := 0, animationFrameId := none },
    pending := [], nextHandle := 1, scrolls := [] }

theorem drag_threshold_classification_witness :
    (∀ z ∈ ([3, -4] : List ℚ), |z - armedWorld.plugin.startY| ≤ DRAG_THRESHOLD) ∧
    DRAG_THRESHOLD < |(6 : ℚ) - armedWorld.plugin.startY| ∧
    movesRun [3, -4] armedWorld = armedWorld ∧
    (movesRun ([3, -4] ++ (6 : ℚ) :: [2]) armedWorld).plugin.didDrag = true := by
  have hsmall : ∀ z ∈ ([3, -4] : List ℚ), |z - armedWorld.plugin.startY| ≤ DRAG_THRESHOLD := by
    intro z hz
    fin_cases hz <;> norm_num [armedWorld, DRAG_THRESHOLD]
  have hbig : DRAG_THRESHOLD < |(6 : ℚ) - armedWorld.plugin.startY| := by
    norm_num [armedWorld, DRAG_THRESHOLD]
  have h := drag_threshold_classification armedWorld [3, -4] [2] 6 rfl rfl hsmall hbig
  exact ⟨hsmall, hbig, h.1, h.2.2.2.2⟩

/-- A world in the Dragging state with anchor 10. -/
def draggingWorld : World :=
  { plugin := { isDragging := true, startY := 10, didDrag := true,
                lastVelocityY := 0, animationFrameId := none },
    pending := [], nextHandle := 1, scrolls := [] }

/-- A move event to Y = 3 with a resolvable content target. -/
def moveEvt : MouseEvent :=
  { button := 0, clientY := 3, ctrlKey := false, altKey := false,
    shiftKey := false, targetInLeafContent := true }

theorem dragging_move_inverts_delta_witness :
    draggingWorld.plugin.isDragging = true ∧
    draggingWorld.plugin.didDrag = true ∧
    handleMouseMove true moveEvt draggingWorld =
      { plugin := { draggingWorld.plugin with
                      lastVelocityY := -(moveEvt.clientY - draggingWorld.plugin.startY)
                      startY := moveEvt.clientY }
        pending := draggingWorld.pending
        nextHandle := draggingWorld.nextHandle
        scrolls := draggingWorld.scrolls ++
          [-(moveEvt.clientY - draggingWorld.plugin.startY)] } :=
  ⟨rfl, rfl, dragging_move_inverts_delta moveEvt draggingWorld rfl rfl⟩

/-- Settings requiring the ctrl modifier. -/
def ctrlSettings : DragToScrollSettings :=
  { mouseButton := 2, modifierKey := "ctrl", friction := 0.92 }

/-- A trigger-button event with ctrl held (and shift also held, which must not
be consulted), inside the content region. -/
def ctrlEvt : MouseEvent :=
  { button := 2, clientY := 7, ctrlKey := true, altKey := false,
    shiftKey := true, targetInLeafContent := true }

/-- An idle world with no gesture and no inertia run. -/
def idleWorld : World :=
  { plugin := { isDragging := false, startY := 0, didDrag := false,
                lastVelocityY := 0, animationFrameId := none },
    pending := [], nextHandle := 1, scrolls := [] }

theorem modifier_gating_witness :
    ctrlEvt.button = ctrlSettings.mouseButton ∧
    modOk ctrlSettings ctrlEvt = true ∧
    (handleMouseDown ctrlSettings true ctrlEvt idleWorld).1.plugin.isDragging = true ∧
    (handleMouseDown ctrlSettings true ctrlEvt idleWorld).2 = true := by
  have h := (modifier_gating ctrlSettings true ctrlEvt idleWorld rfl
    (Or.inr (Or.inl rfl))).2 (by decide) rfl rfl
  exact ⟨rfl, by decide, h.1, h.2⟩

theorem mousedown_outside_region_witness :
    outsideEvt.targetInLeafContent = false ∧
    (handleMouseDown DEFAULT_SETTINGS true outsideEvt outsideWorld).2 = false ∧
    (handleMouseDown DEFAULT_SETTINGS true outsideEvt outsideWorld).1 =
      stopInertiaScroll outsideWorld := by
  have h := mousedown_outside_region DEFAULT_SETTINGS true outsideEvt outsideWorld rfl
  exact ⟨rfl, h.1, h.2.2.2.2.2.2 rfl (by decide)⟩

theorem loadSettings_merges_defaults_witness :
    (loadSettings (some { mouseButton := none, modifierKey := none,
                          friction := some (9/10) })).mouseButton = 2 ∧
    (loadSettings (some { mouseButton := none, modifierKey := none,
                          friction := some (9/10) })).friction = 9/10 := by
  have h := loadSettings_merges_defaults
    (some { mouseButton := none, modifierKey := none, friction := some (9/10) })
  exact ⟨((h.2 _ rfl).1) rfl, ((h.2 _ rfl).2.2.2.2.2) (9/10) rfl⟩

/-- A world with an active run (handle 1 outstanding, velocity 3) and no
gesture in progress. -/
def runWorld : World :=
  { plugin := { isDragging := false, startY := 0, didDrag := false,
                lastVelocityY := 3, animationFrameId := some 1 },
    pending := [1], nextHandle := 2, scrolls := [] }

/-- A qualifying pointer-down inside the content region. -/
def downInEvt : MouseEvent :=
  { button := 2, clientY := 10, ctrlKey := false, altKey := false,
    shiftKey := false, targetInLeafContent := true }

theorem single_outstanding_tick_witness :
    SchedInv runWorld ∧
    (stepsRun DEFAULT_SETTINGS [Event.tick true 1, Event.menu] runWorld).pending.length ≤ 1 ∧
    (handleMouseDown DEFAULT_SETTINGS true downInEvt runWorld).1.plugin.lastVelocityY = 0 ∧
    (handleMouseDown DEFAULT_SETTINGS true downInEvt runWorld).1.pending = [] ∧
    (handleMouseDown DEFAULT_SETTINGS true downInEvt runWorld).1.plugin.animationFrameId = none := by
  have hinv : SchedInv runWorld := by decide
  have h := single_outstanding_tick DEFAULT_SETTINGS runWorld
    [Event.tick true 1, Event.menu] hinv
  have harm := h.2 true downInEvt rfl (by decide)
  exact ⟨hinv, h.1.2, harm.1, harm.2.1, harm.2.2⟩

/-- A mid-drag world (dragging, `didDrag` true, velocity 7). -/
def midDragWorld : World :=
  { plugin := { isDragging := true, startY := 5, didDrag := true,
                lastVelocityY := 7, animationFrameId := none },
    pending := [], nextHandle := 1, scrolls := [] }

/-- A move event arriving while the scroll target is unresolvable. -/
def lostTargetEvt : MouseEvent :=
  { button := 0, clientY := 20, ctrlKey := false, altKey := false,
    shiftKey := false, targetInLeafContent := true }

theorem unresolvable_target_is_noop_witness :
    midDragWorld.plugin.isDragging = true ∧
    handleMouseMove false lostTargetEvt midDragWorld = midDragWorld ∧
    (inertiaStep DEFAULT_SETTINGS false midDragWorld).plugin.lastVelocityY = 0 := by
  have h := unresolvable_target_is_noop DEFAULT_SETTINGS lostTargetEvt midDragWorld rfl
  exact ⟨rfl, h.1, h.2.2.2.1⟩

/-- A world whose inertia velocity 1/2 is already below the stop threshold. -/
def slowWorld : World :=
  { plugin := { isDragging := false, startY := 0, didDrag := false,
                lastVelocityY := 1/2, animationFrameId := some 1 },
    pending := [1], nextHandle := 2, scrolls := [] }

theorem inertia_threshold_precedes_scroll_witness :
    |slowWorld.plugin.lastVelocityY| < 1 ∧
    inertiaStep DEFAULT_SETTINGS true slowWorld = stopInertiaScroll slowWorld ∧
    (inertiaStep DEFAULT_SETTINGS true slowWorld).scrolls = slowWorld.scrolls := by
  have hsmall : |slowWorld.plugin.lastVelocityY| < 1 := by norm_num [slowWorld, abs_lt]
  have h := (inertia_threshold_precedes_scroll DEFAULT_SETTINGS true slowWorld 0).1 hsmall
  exact ⟨hsmall, h.1, h.2⟩
